import Mathlib

/-!
Shallow embedding of the `django-rest-interface` repository:
`django_restapi/resource.py` (the generic `Resource` dispatcher and the
`load_put_and_files` shim) and `trunk/django_restapi/responder.py`
(the `SerializeResponder` family), together with theorems that settle
the specification claims about them.
-/

namespace DjangoRestInterface

/-- Django's `QueryDict` (parsed form data), modelled as an association list. -/
abbrev QueryDict := List (String × String)

/-- Django's `HttpRequest`, restricted to the fields this repository touches:
the HTTP method string, the raw request body, the parsed `POST` and `FILES`
data, and the `PUT` attribute that `load_put_and_files` installs
(`none` while the attribute is not set). -/
structure Request where
  method : String
  raw_post_data : String
  post : QueryDict
  files : QueryDict
  put : Option QueryDict
deriving Repr, DecidableEq

/-- The two exceptions the dispatcher's code paths can raise: Django's
`Http404`, and Python's `TypeError` (raised when a handler of fixed arity
receives extra positional or keyword arguments). -/
inductive HttpError where
  | http404 : HttpError
  | typeError : HttpError
deriving Repr, DecidableEq

/-- HTTP responses the dispatcher returns: Django's
`HttpResponseNotAllowed` (a 405 carrying the permitted-method list) and an
arbitrary response produced by an authentication challenge or a CRUD
handler, abstracted by its content. -/
inductive Response where
  | notAllowed (permitted : List String) : Response
  | content (body : String) : Response
deriving Repr, DecidableEq

/-- An authentication object as `Resource.__call__` uses it: a predicate
`is_authenticated` on requests and a `challenge()` response. -/
structure Authentication where
  is_authenticated : Request → Bool
  challenge : Response

/-- Django's `HttpRequest._load_post_and_files` (framework code outside this
repository), which parses `raw_post_data` into `POST` and `FILES` when the
request method is `POST` and installs empty data otherwise; the body parser
itself is abstracted as the parameter `parseBody`. -/
def loadPostAndFilesDjango (parseBody : String → QueryDict × QueryDict)
    (request : Request) : Request :=
  if request.method = "POST" then
    { request with
      post := (parseBody request.raw_post_data).1
      files := (parseBody request.raw_post_data).2 }
  else
    { request with post := [], files := [] }

/-- The `load_put_and_files` shim of `resource.py`: for a `PUT` request it
relabels the method to `POST`, runs Django's POST-body loading, copies the
resulting `POST` data into the `PUT` attribute, and restores the method. -/
def load_put_and_files (parseBody : String → QueryDict × QueryDict)
    (request : Request) : Request :=
  if request.method = "PUT" then
    let r1 := { request with method := "POST" }
    let r2 := loadPostAndFilesDjango parseBody r1
    let r3 := { r2 with put := some r2.post }
    { r3 with method := "PUT" }
  else request

/-- Python's `str.upper()` as `resource.py` applies it to HTTP method
strings and permitted-method entries: upper-case every character
(ASCII, via `Char.toUpper`). -/
def upper (s : String) : String := String.mk (s.data.map Char.toUpper)

/-- The type of a CRUD handler: it receives the request, the positional
arguments and the keyword arguments, and either returns a response or
raises an exception. -/
abbrev Handler := Request → List String → QueryDict → Except HttpError Response

/-- The default CRUD handler of `Resource` (`def create(self, request): raise
Http404` and its three siblings): with no extra arguments it raises
`Http404`; called with extra positional or keyword arguments, the fixed
arity `(self, request)` makes Python raise `TypeError` instead. -/
def defaultHandler : Handler := fun _ args kwargs =>
  if args.isEmpty && kwargs.isEmpty then Except.error HttpError.http404
  else Except.error HttpError.typeError

/-- The `Resource` class: its two constructor-initialised attributes plus its
four CRUD methods, which a subclass may override. -/
structure Resource where
  authentication : Option Authentication
  permitted_methods : List String
  create : Handler
  read : Handler
  update : Handler
  delete : Handler

/-- Embedding of `Resource.__init__`: stores the authentication object, upper-cases a
truthy (non-`None`, non-empty) `permitted_methods` sequence, and falls back
to `["GET"]` otherwise; the CRUD methods are the defaults. -/
def Resource.init (authentication : Option Authentication)
    (permitted_methods : Option (List String)) : Resource :=
  { authentication := authentication
    permitted_methods :=
      match permitted_methods with
      | some pms => if pms.isEmpty then ["GET"] else pms.map upper
      | none => ["GET"]
    create := defaultHandler
    read := defaultHandler
    update := defaultHandler
    delete := defaultHandler }

/-- The part of `Resource.__call__` after the permission check: the
method-allow-list check followed by the four-way dispatch. -/
def Resource.dispatch (parseBody : String → QueryDict × QueryDict)
    (self : Resource) (request : Request) (args : List String)
    (kwargs : QueryDict) : Except HttpError Response :=
  let request_method := upper request.method
  if request_method ∉ self.permitted_methods then
    Except.ok (Response.notAllowed self.permitted_methods)
  else if request_method = "GET" then
    self.read request args kwargs
  else if request_method = "POST" then
    self.create request args kwargs
  else if request_method = "PUT" then
    self.update (load_put_and_files parseBody request) args kwargs
  else if request_method = "DELETE" then
    self.delete request args kwargs
  else
    Except.error HttpError.http404

/-- Embedding of `Resource.__call__`: the permission check (challenge when the
authentication object rejects the request), then the allow-list check and
the dispatch. -/
def Resource.call (parseBody : String → QueryDict × QueryDict)
    (self : Resource) (request : Request) (args : List String)
    (kwargs : QueryDict) : Except HttpError Response :=
  match self.authentication with
  | some auth =>
    if !auth.is_authenticated request then Except.ok auth.challenge
    else self.dispatch parseBody request args kwargs
  | none => self.dispatch parseBody request args kwargs

/-- Django's `HttpResponse`, restricted to what `responder.py` uses: a body,
a mimetype and a status code (`200` on construction). -/
structure HttpResponse where
  body : String
  mimetype : Option String
  status_code : Nat
deriving Repr, DecidableEq

/-- Constructor `HttpResponse(content, mimetype)`: fresh response with status `200`. -/
def HttpResponse.make (content : String) (mimetype : Option String) :
    HttpResponse :=
  { body := content, mimetype := mimetype, status_code := 200 }

/-- Method `HttpResponse.write`: appends to the response body. -/
def HttpResponse.write (self : HttpResponse) (s : String) : HttpResponse :=
  { self with body := self.body ++ s }

/-- Django `newforms` `ErrorDict`: field name to list of error messages. -/
abbrev ErrorDict := List (String × List String)

/-- Embedding of `ErrorDict.as_text` from Django's `newforms.util` (framework code outside
this repository): each field renders as a starred heading followed by its
indented starred messages, fields joined by newlines. -/
def ErrorDict.as_text (self : ErrorDict) : String :=
  String.intercalate "\n" (self.map (fun kv =>
    "* " ++ kv.1 ++ "\n" ++
      String.intercalate "\n" (kv.2.map (fun e => "  * " ++ e))))

/-- The `SerializeResponder` class: its two constructor attributes. -/
structure SerializeResponder where
  format : String
  mimetype : Option String
deriving Repr, DecidableEq

/-- Embedding of `SerializeResponder.render`: serializes a queryset to `self.format` via
Django's serializer registry, abstracted as the parameter `serialize`. -/
def SerializeResponder.render {α : Type} (serialize : String → List α → String)
    (self : SerializeResponder) (queryset : List α) : String :=
  serialize self.format queryset

/-- Embedding of `SerializeResponder.element`: renders a single model object by
serializing the one-element list. -/
def SerializeResponder.element {α : Type} (serialize : String → List α → String)
    (self : SerializeResponder) (elem : α) : HttpResponse :=
  HttpResponse.make (self.render serialize [elem]) self.mimetype

/-- Embedding of `SerializeResponder.list`: renders a queryset to an `HttpResponse`. -/
def SerializeResponder.list {α : Type} (serialize : String → List α → String)
    (self : SerializeResponder) (queryset : List α) : HttpResponse :=
  HttpResponse.make (self.render serialize queryset) self.mimetype

/-- Embedding of `SerializeResponder.error`: builds a response with the given mimetype,
writes `Error <status_code>`, appends the errors section when the error
dict is truthy (non-empty), and sets the status code. -/
def SerializeResponder.error (self : SerializeResponder) (status_code : Nat)
    (error_dict : ErrorDict) : HttpResponse :=
  let response := HttpResponse.make "" self.mimetype
  let response := response.write ("Error " ++ toString status_code)
  let response :=
    if !error_dict.isEmpty then
      (response.write "\n\nErrors:\n").write (ErrorDict.as_text error_dict)
    else response
  { response with status_code := status_code }

/-- Embedding of `JSONResponder.__init__`: a `SerializeResponder` for format `json` with
mimetype `application/json`. -/
def JSONResponder : SerializeResponder :=
  { format := "json", mimetype := some "application/json" }

/-- Embedding of `XMLResponder.__init__`: a `SerializeResponder` for format `xml` with
mimetype `application/xml`. -/
def XMLResponder : SerializeResponder :=
  { format := "xml", mimetype := some "application/xml" }

/-! Concrete sample values used by the witness theorems. -/

/-- A sample body parser: the whole raw body as one `POST` entry, no files. -/
def pbSample : String → QueryDict × QueryDict := fun s => ([("body", s)], [])

/-- A sample `GET` request (lower-case method, as a client may send it). -/
def getReq : Request :=
  { method := "get", raw_post_data := "", post := [], files := [], put := none }

/-- A sample `POST` request. -/
def postReq : Request :=
  { method := "POST", raw_post_data := "a=1", post := [], files := [], put := none }

/-- A sample `PUT` request. -/
def putReq : Request :=
  { method := "PUT", raw_post_data := "a=1", post := [], files := [], put := none }

/-- A sample `HEAD` request. -/
def headReq : Request :=
  { method := "HEAD", raw_post_data := "", post := [], files := [], put := none }

/-- A sample authentication object that rejects every request. -/
def sampleAuth : Authentication :=
  { is_authenticated := fun _ => false, challenge := Response.content "challenge" }

/-- A sample subclass instance: a `GET`-only resource overriding `read`. -/
def sampleGetResource : Resource :=
  { (Resource.init none (some ["get"])) with
    read := fun _ _ _ => Except.ok (Response.content "read result") }

/-- A resource whose only permitted method is `HEAD`. -/
def headResource : Resource := Resource.init none (some ["HEAD"])

/-- C1: for a request that passes the authentication check and whose
upper-cased method is permitted, `Resource.__call__` dispatches `GET` to
`read`, `POST` to `create`, `PUT` (after `load_put_and_files`) to `update`
and `DELETE` to `delete`, forwarding request and arguments and returning
the handler's result. -/
theorem resource_call_dispatch_table (pb : String → QueryDict × QueryDict)
    (r : Resource) (req : Request) (args : List String) (kwargs : QueryDict)
    (hauth : ∀ a, r.authentication = some a → a.is_authenticated req = true)
    (hperm : upper req.method ∈ r.permitted_methods) :
    (upper req.method = "GET" →
      r.call pb req args kwargs = r.read req args kwargs) ∧
    (upper req.method = "POST" →
      r.call pb req args kwargs = r.create req args kwargs) ∧
    (upper req.method = "PUT" →
      r.call pb req args kwargs = r.update (load_put_and_files pb req) args kwargs) ∧
    (upper req.method = "DELETE" →
      r.call pb req args kwargs = r.delete req args kwargs) := by
  obtain ⟨auth, pms, hc, hr, hu, hd⟩ := r
  have hcall : Resource.call pb ⟨auth, pms, hc, hr, hu, hd⟩ req args kwargs =
      Resource.dispatch pb ⟨auth, pms, hc, hr, hu, hd⟩ req args kwargs := by
    cases auth with
    | none => rfl
    | some a => simp [Resource.call, hauth a rfl]
  refine ⟨?_, ?_, ?_, ?_⟩ <;> intro h <;>
    simp_all [Resource.dispatch]

/-- Witness for C1: a permitted lower-case `get` request on a resource with
an overridden `read` is routed to `read`. -/
theorem resource_call_dispatch_table_witness :
    upper getReq.method ∈ sampleGetResource.permitted_methods ∧
    sampleGetResource.call pbSample getReq [] [] =
      sampleGetResource.read getReq [] [] :=
  ⟨by decide,
    (resource_call_dispatch_table pbSample sampleGetResource getReq [] []
      (fun a h => Option.noConfusion h) (by decide)).1 (by decide)⟩

/-- C2: for a request that passes the authentication check but whose
upper-cased method is not permitted, `Resource.__call__` returns
`HttpResponseNotAllowed` built from the permitted-method list, whatever the
four CRUD handlers are (so none of them is invoked). -/
theorem resource_call_method_not_allowed (pb : String → QueryDict × QueryDict)
    (r : Resource) (req : Request) (args : List String) (kwargs : QueryDict)
    (hauth : ∀ a, r.authentication = some a → a.is_authenticated req = true)
    (hperm : upper req.method ∉ r.permitted_methods) :
    ∀ c rd u d : Handler,
      Resource.call pb
        { r with create := c, read := rd, update := u, delete := d }
        req args kwargs
        = Except.ok (Response.notAllowed r.permitted_methods) := by
  intro c rd u d
  obtain ⟨auth, pms, _, _, _, _⟩ := r
  cases auth with
  | none => simp [Resource.call, Resource.dispatch, hperm]
  | some a => simp [Resource.call, Resource.dispatch, hauth a rfl, hperm]

/-- Witness for C2: a `POST` request on a default (GET-only) resource gets
a 405 listing `["GET"]`, for any handlers installed. -/
theorem resource_call_method_not_allowed_witness :
    upper postReq.method ∉ (Resource.init none none).permitted_methods ∧
    Resource.call pbSample
      { (Resource.init none none) with
        create := defaultHandler, read := defaultHandler,
        update := defaultHandler, delete := defaultHandler }
      postReq [] []
      = Except.ok (Response.notAllowed (Resource.init none none).permitted_methods) :=
  ⟨by decide,
    resource_call_method_not_allowed pbSample (Resource.init none none) postReq [] []
      (fun a h => Option.noConfusion h) (by decide)
      defaultHandler defaultHandler defaultHandler defaultHandler⟩

/-- C3: when the resource has an authentication object that rejects the
request, `Resource.__call__` returns the challenge (whatever the permitted
methods and handlers, i.e. before the allow-list check and dispatch); when
the authentication attribute is `None`, the call is exactly the un-gated
allow-list-and-dispatch pipeline. -/
theorem resource_call_authentication_gate (pb : String → QueryDict × QueryDict)
    (r : Resource) (req : Request) (args : List String) (kwargs : QueryDict) :
    (∀ a, r.authentication = some a → a.is_authenticated req = false →
      r.call pb req args kwargs = Except.ok a.challenge) ∧
    (r.authentication = none →
      r.call pb req args kwargs = r.dispatch pb req args kwargs) := by
  obtain ⟨auth, pms, hc, hr, hu, hd⟩ := r
  constructor
  · intro a hA hfail
    cases auth with
    | none => exact Option.noConfusion hA
    | some a0 =>
      cases Option.some.inj hA
      simp [Resource.call, hfail]
  · intro hA
    cases auth with
    | none => rfl
    | some a0 => exact Option.noConfusion hA

/-- Witness for C3: an unauthenticated request on a resource with a
rejecting authentication object receives the challenge response. -/
theorem resource_call_authentication_gate_witness :
    (Resource.init (some sampleAuth) none).authentication = some sampleAuth ∧
    sampleAuth.is_authenticated getReq = false ∧
    (Resource.init (some sampleAuth) none).call pbSample getReq [] [] =
      Except.ok sampleAuth.challenge :=
  ⟨rfl, rfl,
    (resource_call_authentication_gate pbSample (Resource.init (some sampleAuth) none)
      getReq [] []).1 sampleAuth rfl rfl⟩

/-- C4: `load_put_and_files` leaves `request.method` unchanged; on a `PUT`
request it equals relabelling the method to `POST`, running Django's
POST-body loading, copying the resulting `POST` into `PUT` and restoring
the method; on any other request it changes nothing. -/
theorem load_put_and_files_preserves_method (pb : String → QueryDict × QueryDict)
    (req : Request) :
    (load_put_and_files pb req).method = req.method ∧
    (req.method = "PUT" →
      load_put_and_files pb req =
        { loadPostAndFilesDjango pb { req with method := "POST" } with
          put := some (loadPostAndFilesDjango pb { req with method := "POST" }).post
          method := "PUT" }) ∧
    (req.method ≠ "PUT" → load_put_and_files pb req = req) := by
  by_cases h : req.method = "PUT"
  · refine ⟨?_, fun _ => ?_, fun hne => absurd h hne⟩ <;>
      simp [load_put_and_files, h]
  · exact ⟨by simp [load_put_and_files, h], fun hPUT => absurd hPUT h,
      fun _ => by simp [load_put_and_files, h]⟩

/-- Witness for C4: a concrete `PUT` request is relabelled, parsed, given a
`PUT` attribute and restored. -/
theorem load_put_and_files_preserves_method_witness :
    putReq.method = "PUT" ∧
    load_put_and_files pbSample putReq =
      { loadPostAndFilesDjango pbSample { putReq with method := "POST" } with
        put := some (loadPostAndFilesDjango pbSample { putReq with method := "POST" }).post
        method := "PUT" } :=
  ⟨rfl, (load_put_and_files_preserves_method pbSample putReq).2.1 rfl⟩

/-- A sample non-empty error dict. -/
def errDictSample : ErrorDict := [("name", ["This field is required."])]

/-- C5: `SerializeResponder.error` returns a response with the given status
code whose body starts with `Error ` followed by the status code, and the
body carries the `\n\nErrors:\n` section followed by `error_dict.as_text()`
exactly when the error dict is non-empty. -/
theorem serialize_responder_error_body (r : SerializeResponder) (sc : Nat)
    (d : ErrorDict) :
    (SerializeResponder.error r sc d).status_code = sc ∧
    (SerializeResponder.error r sc d).body =
      "Error " ++ toString sc ++
        (if d.isEmpty then "" else "\n\nErrors:\n" ++ ErrorDict.as_text d) ∧
    (d ≠ [] ↔ (SerializeResponder.error r sc d).body =
      "Error " ++ toString sc ++ ("\n\nErrors:\n" ++ ErrorDict.as_text d)) := by
  refine ⟨rfl, ?_, ?_⟩
  · cases d with
    | nil =>
      simp [SerializeResponder.error, HttpResponse.make, HttpResponse.write]
    | cons x xs =>
      simp [SerializeResponder.error, HttpResponse.make, HttpResponse.write,
        String.append_assoc]
  · constructor
    · intro hne
      cases d with
      | nil => exact absurd rfl hne
      | cons x xs =>
        simp [SerializeResponder.error, HttpResponse.make, HttpResponse.write,
          String.append_assoc]
    · intro hbody
      cases d with
      | cons x xs => simp
      | nil =>
        exfalso
        have hnil : ErrorDict.as_text [] = "" := rfl
        rw [hnil] at hbody
        have hb : ("" ++ ("Error " ++ toString sc) : String) =
            "Error " ++ toString sc ++ ("\n\nErrors:\n" ++ "") := hbody
        have hlen := congrArg String.length hb
        have h10 : ("\n\nErrors:\n" : String).length = 10 := rfl
        simp [String.length_append, h10] at hlen

/-- Witness for C5: the error response for status 400 and a one-field error
dict has status 400, the `Error 400` prefix and the errors section. -/
theorem serialize_responder_error_body_witness :
    (SerializeResponder.error JSONResponder 400 errDictSample).status_code = 400 ∧
    (SerializeResponder.error JSONResponder 400 errDictSample).body =
      "Error " ++ toString 400 ++
        (if errDictSample.isEmpty then ""
         else "\n\nErrors:\n" ++ ErrorDict.as_text errDictSample) ∧
    (errDictSample ≠ [] ↔
      (SerializeResponder.error JSONResponder 400 errDictSample).body =
        "Error " ++ toString 400 ++
          ("\n\nErrors:\n" ++ ErrorDict.as_text errDictSample)) :=
  serialize_responder_error_body JSONResponder 400 errDictSample

/-- C6: `JSONResponder` is a `SerializeResponder` with format `json` and
mimetype `application/json`; `XMLResponder` with format `xml` and mimetype
`application/xml`. -/
theorem responder_formats_and_mimetypes :
    JSONResponder.format = "json" ∧
    JSONResponder.mimetype = some "application/json" ∧
    XMLResponder.format = "xml" ∧
    XMLResponder.mimetype = some "application/xml" :=
  ⟨rfl, rfl, rfl, rfl⟩

/-- C7: `SerializeResponder.list` wraps the single serializer call on the
queryset in an `HttpResponse` with the responder's mimetype and status 200,
and `SerializeResponder.element` does the same on the one-element list. -/
theorem serialize_responder_list_element {α : Type}
    (serialize : String → List α → String) (r : SerializeResponder)
    (queryset : List α) (elem : α) :
    (SerializeResponder.list serialize r queryset).body = serialize r.format queryset ∧
    (SerializeResponder.list serialize r queryset).mimetype = r.mimetype ∧
    (SerializeResponder.list serialize r queryset).status_code = 200 ∧
    (SerializeResponder.element serialize r elem).body = serialize r.format [elem] ∧
    (SerializeResponder.element serialize r elem).mimetype = r.mimetype ∧
    (SerializeResponder.element serialize r elem).status_code = 200 :=
  ⟨rfl, rfl, rfl, rfl, rfl, rfl⟩

/-- C8: on a resource whose CRUD methods are the defaults, a request (with
no extra view arguments) that passes the authentication and allow-list
checks and uses one of the four dispatchable methods ends in `Http404`;
each default handler raises `Http404` itself. -/
theorem resource_default_crud_http404 (pb : String → QueryDict × QueryDict)
    (a : Option Authentication) (pm : Option (List String)) (req : Request)
    (hauth : ∀ au, a = some au → au.is_authenticated req = true)
    (hperm : upper req.method ∈ (Resource.init a pm).permitted_methods)
    (hm : upper req.method = "GET" ∨ upper req.method = "POST" ∨
      upper req.method = "PUT" ∨ upper req.method = "DELETE") :
    (Resource.init a pm).create req [] [] = Except.error HttpError.http404 ∧
    (Resource.init a pm).read req [] [] = Except.error HttpError.http404 ∧
    (Resource.init a pm).update req [] [] = Except.error HttpError.http404 ∧
    (Resource.init a pm).delete req [] [] = Except.error HttpError.http404 ∧
    (Resource.init a pm).call pb req [] [] = Except.error HttpError.http404 := by
  refine ⟨rfl, rfl, rfl, rfl, ?_⟩
  have hcall : (Resource.init a pm).call pb req [] [] =
      (Resource.init a pm).dispatch pb req [] [] := by
    cases a with
    | none => rfl
    | some au => simp [Resource.call, Resource.init, hauth au rfl]
  rw [hcall]
  rcases hm with h | h | h | h <;> rw [h] at hperm <;>
    simp [Resource.init] at hperm <;>
    simp [Resource.dispatch, Resource.init, defaultHandler, hperm, h]

/-- Witness for C8: a `PUT` request on a PUT-permitting default resource
yields `Http404`. -/
theorem resource_default_crud_http404_witness :
    upper putReq.method ∈ (Resource.init none (some ["PUT"])).permitted_methods ∧
    (Resource.init none (some ["PUT"])).call pbSample putReq [] [] =
      Except.error HttpError.http404 :=
  ⟨by decide,
    (resource_default_crud_http404 pbSample none (some ["PUT"]) putReq
      (fun au h => Option.noConfusion h) (by decide) (by decide)).2.2.2.2⟩

/-- C9: `Resource.__init__` falls back to `["GET"]` when `permitted_methods`
is `None` or empty and otherwise stores the upper-cased entries; hence the
default resource answers 405 listing `["GET"]` to every POST, PUT or
DELETE request. -/
theorem resource_init_permitted_methods :
    (∀ a, (Resource.init a none).permitted_methods = ["GET"]) ∧
    (∀ a, (Resource.init a (some [])).permitted_methods = ["GET"]) ∧
    (∀ a l, l ≠ [] →
      (Resource.init a (some l)).permitted_methods = l.map upper) ∧
    (∀ pb req args kwargs,
      (upper req.method = "POST" ∨ upper req.method = "PUT" ∨
        upper req.method = "DELETE") →
      (Resource.init none none).call pb req args kwargs =
        Except.ok (Response.notAllowed ["GET"])) := by
  refine ⟨fun a => rfl, fun a => rfl, fun a l hl => ?_,
    fun pb req args kwargs hm => ?_⟩
  · cases l with
    | nil => exact absurd rfl hl
    | cons x xs => rfl
  · rcases hm with h | h | h <;>
      simp [Resource.call, Resource.init, Resource.dispatch, h]

/-- Witness for C9: a non-empty constructor list is upper-cased, and the
default resource rejects a `POST` request with a 405 listing `["GET"]`. -/
theorem resource_init_permitted_methods_witness :
    (["get", "Put"] : List String) ≠ [] ∧
    (Resource.init none (some ["get", "Put"])).permitted_methods =
      (["get", "Put"] : List String).map upper ∧
    (upper postReq.method = "POST" ∨ upper postReq.method = "PUT" ∨
      upper postReq.method = "DELETE") ∧
    (Resource.init none none).call pbSample postReq [] [] =
      Except.ok (Response.notAllowed ["GET"]) :=
  ⟨by decide,
    resource_init_permitted_methods.2.2.1 none ["get", "Put"] (by decide),
    by decide,
    resource_init_permitted_methods.2.2.2 pbSample postReq [] [] (by decide)⟩

/-- C10: a request whose upper-cased method is permitted but is none of
GET, POST, PUT or DELETE makes `Resource.__call__` raise `Http404`. -/
theorem resource_call_unknown_method_http404 (pb : String → QueryDict × QueryDict)
    (r : Resource) (req : Request) (args : List String) (kwargs : QueryDict)
    (hauth : ∀ a, r.authentication = some a → a.is_authenticated req = true)
    (hperm : upper req.method ∈ r.permitted_methods)
    (hnot : upper req.method ∉ (["GET", "POST", "PUT", "DELETE"] : List String)) :
    r.call pb req args kwargs = Except.error HttpError.http404 := by
  obtain ⟨auth, pms, hc, hr, hu, hd⟩ := r
  have h1 : upper req.method ≠ "GET" := fun h => hnot (by simp [h])
  have h2 : upper req.method ≠ "POST" := fun h => hnot (by simp [h])
  have h3 : upper req.method ≠ "PUT" := fun h => hnot (by simp [h])
  have h4 : upper req.method ≠ "DELETE" := fun h => hnot (by simp [h])
  have hcall : Resource.call pb ⟨auth, pms, hc, hr, hu, hd⟩ req args kwargs =
      Resource.dispatch pb ⟨auth, pms, hc, hr, hu, hd⟩ req args kwargs := by
    cases auth with
    | none => rfl
    | some a => simp [Resource.call, hauth a rfl]
  rw [hcall]
  simp [Resource.dispatch, hperm, h1, h2, h3, h4]

/-- Witness for C10: a permitted `HEAD` request raises `Http404`. -/
theorem resource_call_unknown_method_http404_witness :
    upper headReq.method ∈ headResource.permitted_methods ∧
    upper headReq.method ∉ (["GET", "POST", "PUT", "DELETE"] : List String) ∧
    headResource.call pbSample headReq [] [] = Except.error HttpError.http404 :=
  ⟨by decide, by decide,
    resource_call_unknown_method_http404 pbSample headResource headReq [] []
      (by intro a h; simp [headResource, Resource.init] at h)
      (by decide) (by decide)⟩

end DjangoRestInterface
